import Mathlib

/-!
Shallow embedding of the `weather_cli` terminal weather-canvas renderer and
its tabbed view controller (sources: `src/modules/tui.rs`,
`src/modules/canvas.rs`, `src/modules/types.rs`).

Modelling conventions:
* Rust `f64` values are embedded as exact rationals (`ℚ`); the transcendental
  `f64` operations `sin`, `cos` and the constant `PI` are abstracted into a
  `FloatOps` record that is threaded through every drawing function whose
  Rust source uses them, so every theorem holds for an arbitrary
  interpretation of those operations.
* The wall-clock reads (`SystemTime::now` millis) inside the drawing
  functions are threaded as an explicit `clock : ℕ` parameter; all reads
  within one rendered frame observe the same clock value.
* `u8`/`u32`/`usize` become `ℕ`, `chrono::DateTime<Utc>` becomes seconds
  since the Unix epoch (`ℤ`), and the `ratatui` draw primitives become an
  inductive `DrawCmd` list (the ordered scene of one frame).
* Rust casts `as u32`/`as usize` on non-negative `f64` values are floors
  (saturating at zero below), and `as i32` truncates toward zero.
-/

namespace WeatherCli

/-- The subset of `ratatui::style::Color` used by the canvas module. -/
inductive Color where
  | black | darkGray | gray | white
  | blue | lightBlue | yellow | lightYellow
  | red | lightRed | green | cyan | magenta
deriving DecidableEq, Repr

/-- A draw primitive submitted to the `ratatui` canvas context
(`ctx.draw` of `Line`, `Circle`, `Points`, `Rectangle`). -/
inductive DrawCmd where
  | line (x1 y1 x2 y2 : ℚ) (color : Color)
  | circle (x y radius : ℚ) (color : Color)
  | points (coords : List (ℚ × ℚ)) (color : Color)
  | rect (x y width height : ℚ) (color : Color)
deriving DecidableEq, Repr

/-- Abstracted `f64` transcendental operations (`sin`, `cos`, `PI`). -/
structure FloatOps where
  sin : ℚ → ℚ
  cos : ℚ → ℚ
  pi : ℚ

/-- A concrete (arbitrary) interpretation of the abstracted float
operations, used to evaluate witnesses. -/
def F0 : FloatOps := ⟨fun _ => 0, fun _ => 0, 0⟩

/-- `weather_cli` weather condition enum (`types.rs`). -/
inductive WeatherCondition where
  | clear | clouds | rain | drizzle | thunderstorm | snow
  | mist | fog | smoke | haze | dust | sand | ash | squall
  | tornado | unknown
deriving DecidableEq, Repr

/-- Detail level enum (`types.rs`). -/
inductive DetailLevel where
  | basic | standard | detailed | debugLevel
deriving DecidableEq, Repr

/-- Textual weather description record (`types.rs`). -/
structure WeatherDescription where
  id : ℕ
  main : String
  description : String
  icon : String
deriving DecidableEq, Repr

/-- Hourly forecast record (`types.rs`); timestamps are epoch seconds. -/
structure HourlyForecast where
  timestamp : ℤ
  temperature : ℚ
  feels_like : ℚ
  humidity : ℕ
  pressure : ℕ
  wind_speed : ℚ
  wind_direction : ℕ
  conditions : List WeatherDescription
  main_condition : WeatherCondition
  pop : ℚ
  visibility : ℕ
  clouds : ℕ
  rain : Option ℚ
  snow : Option ℚ
deriving DecidableEq, Repr

/-- Daily forecast record (`types.rs`). -/
structure DailyForecast where
  date : ℤ
  sunrise : ℤ
  sunset : ℤ
  temp_morning : ℚ
  temp_day : ℚ
  temp_evening : ℚ
  temp_night : ℚ
  temp_min : ℚ
  temp_max : ℚ
  feels_like_day : ℚ
  feels_like_night : ℚ
  pressure : ℕ
  humidity : ℕ
  wind_speed : ℚ
  wind_direction : ℕ
  conditions : List WeatherDescription
  main_condition : WeatherCondition
  clouds : ℕ
  pop : ℚ
  rain : Option ℚ
  snow : Option ℚ
  uv_index : ℚ
deriving DecidableEq, Repr

/-- Location record (`types.rs`). -/
structure Location where
  name : String
  country : String
  country_code : String
  latitude : ℚ
  longitude : ℚ
  timezone : String
  region : Option String
  state : Option String
deriving DecidableEq, Repr

/-- Configuration record (`types.rs`). -/
structure WeatherConfig where
  units : String
  location : Option String
  json_output : Bool
  animation_enabled : Bool
  detail_level : DetailLevel
deriving DecidableEq, Repr

/-! ### Numeric helpers for the Rust-to-Lean translation -/

/-- Rust `x as u32` / `as usize` on an `f64`: floor, saturating at `0`
for negative inputs. -/
def ratToNat (q : ℚ) : ℕ := (⌊q⌋).toNat

/-- Rust `x as i32` on an `f64`: truncation toward zero. -/
def ratToInt (q : ℚ) : ℤ := if 0 ≤ q then ⌊q⌋ else ⌈q⌉

/-- Rust `a % b` on `f64` (truncated remainder). -/
def ratRem (a b : ℚ) : ℚ := a - b * (ratToInt (a / b) : ℚ)

/-- Rust `Iterator::step_by`: every `s`-th element of a list, starting at
the head. -/
def stepBy (l : List α) (s : ℕ) : List α :=
  l.enum.filterMap (fun p => if p.1 % s = 0 then some p.2 else none)

/-- Rust range `a..b` as a list. -/
def rangeFrom (a b : ℕ) : List ℕ := (List.range (b - a)).map (a + ·)

/-! ### Tab controller (`tui.rs`) -/

/-- The tab enum of the TUI (`TuiTab` in `tui.rs`). -/
inductive TuiTab where
  | currentWeather | weatherForecast | calendar
deriving DecidableEq, Repr

namespace TuiTab

/-- `TuiTab::next` (cyclic). -/
def next : TuiTab → TuiTab
  | currentWeather => weatherForecast
  | weatherForecast => calendar
  | calendar => currentWeather

/-- `TuiTab::prev` (cyclic). -/
def prev : TuiTab → TuiTab
  | currentWeather => calendar
  | weatherForecast => currentWeather
  | calendar => weatherForecast

end TuiTab

/-- The `crossterm` key codes the render loop can receive: the named keys it
matches on, any character key, and a catch-all for every other key code. -/
inductive KeyCode where
  | char (c : Char)
  | esc | right | left | tabKey | backTab
  | otherKey (code : ℕ)
deriving DecidableEq, Repr

/-- `crossterm::event::KeyEventKind`. -/
inductive KeyEventKind where
  | press | release | repeatKind
deriving DecidableEq, Repr

/-- A terminal event: a key event (code and kind) or any non-key event
(resize, mouse, focus, paste — all ignored by the loop). -/
inductive TermEvent where
  | key (code : KeyCode) (kind : KeyEventKind)
  | nonKey (n : ℕ)
deriving DecidableEq, Repr

/-- Outcome of handling one event in `WeatherTui::run`: either the loop
breaks (quit) or continues with a (possibly updated) active tab. -/
inductive LoopStep where
  | quit
  | cont (tab : TuiTab)
deriving DecidableEq, Repr

/-- The key-press dispatch of `WeatherTui::run` (`tui.rs`, the
`match key.code` arms). -/
def handle_key (tab : TuiTab) (k : KeyCode) : LoopStep :=
  match k with
  | .char c =>
      if c = 'q' then .quit
      else if c = '1' then .cont .currentWeather
      else if c = '2' then .cont .weatherForecast
      else if c = '3' then .cont .calendar
      else .cont tab
  | .esc => .quit
  | .right => .cont tab.next
  | .tabKey => .cont tab.next
  | .left => .cont tab.prev
  | .backTab => .cont tab.prev
  | .otherKey _ => .cont tab

/-- The event dispatch of `WeatherTui::run`: only key events of kind
`Press` are acted on; everything else is ignored. -/
def handle_event (tab : TuiTab) (e : TermEvent) : LoopStep :=
  match e with
  | .key k kind => if kind = .press then handle_key tab k else .cont tab
  | .nonKey _ => .cont tab

/-- The mutable state owned by the render loop (`UiState` in `tui.rs`). -/
structure UiState where
  active_tab : TuiTab
  hourly_data : List HourlyForecast
  daily_data : List DailyForecast
  location : Location
  config : WeatherConfig

/-- One iteration of the render loop applied to an input event: the only
field ever assigned by the event arms is `active_tab`; `none` models the
`break` on quit. -/
def ui_step (s : UiState) (e : TermEvent) : Option UiState :=
  match handle_event s.active_tab e with
  | .quit => none
  | .cont t => some { s with active_tab := t }

/-- The render loop of `WeatherTui::run` driven by a list of input events,
returning the final state (stopping early on quit). -/
def run_loop (s : UiState) : List TermEvent → UiState
  | [] => s
  | e :: es =>
      match ui_step s e with
      | none => s
      | some s' => run_loop s' es

/-! ### Daytime detection (`canvas.rs::is_daytime`) -/

/-- The UTC hour of an epoch-seconds timestamp (what
`chrono::DateTime<Utc>::hour()` returns). -/
def utc_hour (ts : ℤ) : ℤ := (ts.ediv 3600).emod 24

/-- `canvas.rs::is_daytime`: day iff the UTC hour of the timestamp is in
`[6, 18)`. -/
def is_daytime (ts : ℤ) : Bool := 6 ≤ utc_hour ts && utc_hour ts < 18

/-! ### Scene generator (`canvas.rs`), layer by layer -/

/-- `canvas.rs::draw_sky_gradient`: 25 horizontal bands, colored by a
condition/temperature/day-night decision table. -/
def draw_sky_gradient (is_day : Bool) (temperature : ℚ)
    (condition : WeatherCondition) : List DrawCmd :=
  let layers : ℕ := 25
  (List.range layers).flatMap (fun (layer : ℕ) =>
    let y_start : ℚ := 100 + (layer : ℚ) * 4
    let y_end : ℚ := y_start + 4
    let intensity : ℚ := (layer : ℚ) / (layers : ℚ)
    let color :=
      if is_day then
        match condition with
        | .thunderstorm =>
            if intensity < 0.3 then Color.black
            else if intensity < 0.7 then Color.darkGray
            else Color.gray
        | .fog | .mist =>
            if intensity < 0.5 then Color.gray else Color.white
        | _ =>
            if temperature > 35 then
              if intensity < 0.2 then Color.yellow
              else if intensity < 0.5 then Color.lightYellow
              else if intensity < 0.8 then Color.lightBlue
              else Color.blue
            else if temperature < 5 then
              if intensity < 0.3 then Color.white
              else if intensity < 0.7 then Color.lightBlue
              else Color.blue
            else
              if intensity < 0.4 then Color.lightBlue
              else if intensity < 0.8 then Color.blue
              else Color.blue
      else
        match condition with
        | .clear =>
            if intensity < 0.6 then Color.black
            else if intensity < 0.9 then Color.blue
            else Color.blue
        | _ => if intensity < 0.8 then Color.black else Color.darkGray
    (rangeFrom (ratToNat y_start) (ratToNat y_end + 1)).map
      (fun (y : ℕ) => DrawCmd.line 0 (y : ℚ) 400 (y : ℚ) color))

/-- The fixed horizon line at `y = 50` drawn first by
`canvas.rs::draw_ground_terrain`. -/
def ground_horizon : DrawCmd := .line 0 50 400 50 .green

/-- The textured ground-surface point field of
`canvas.rs::draw_ground_terrain` (density and color vary by condition and
by vertical band). -/
def ground_surface_points (F : FloatOps) (condition : WeatherCondition) :
    List DrawCmd :=
  (List.range 50).flatMap (fun (y : ℕ) =>
    let base_color :=
      match condition with
      | .snow => Color.white
      | .rain | .drizzle => Color.darkGray
      | .fog | .mist => Color.gray
      | _ => if y > 30 then Color.green else Color.darkGray
    let density : ℕ := if y ≤ 15 then 30 else if y ≤ 35 then 20 else 12
    (stepBy (List.range 400) density).filterMap (fun (x : ℕ) =>
      let offset_x : ℚ := (x : ℚ) + F.sin ((y : ℚ) * 0.5) * 3
      if 0 ≤ offset_x ∧ offset_x < 400 then
        some (DrawCmd.points [(offset_x, (y : ℚ))] base_color)
      else none))

/-- `canvas.rs::draw_puddles`: fixed puddles with ripple reflections. -/
def draw_puddles (F : FloatOps) : List DrawCmd :=
  let puddles : List (ℚ × ℚ × ℚ) :=
    [(70, 42, 35), (180, 45, 40), (290, 44, 30), (360, 43, 25)]
  puddles.flatMap (fun pd =>
    let px := pd.1
    let py := pd.2.1
    let width := pd.2.2
    ((List.range (ratToNat width / 2)).map (fun (w : ℕ) =>
      let ripple_x := px - width / 2 + (w : ℚ) * 2
      let ripple_y := py + F.sin ((w : ℚ) * 0.3) * 1.5
      DrawCmd.points [(ripple_x, ripple_y), (ripple_x + 1, ripple_y)]
        .lightBlue))
    ++ [DrawCmd.points [(px - width / 2, py), (px + width / 2, py)] .blue])

/-- `canvas.rs::draw_snow_drifts`: drift height is a clamped sum of two
sine waves of `x`, plus two fixed snow mounds. -/
def draw_snow_drifts (F : FloatOps) : List DrawCmd :=
  ((List.range 400).flatMap (fun (x : ℕ) =>
    let drift_height : ℚ :=
      8 + 6 * F.sin ((x : ℚ) * 0.02) + 3 * F.cos ((x : ℚ) * 0.05)
    let snow_depth : ℚ := min (max drift_height 2) 15
    (List.range (ratToNat snow_depth)).filterMap (fun (y : ℕ) =>
      let ground_y : ℚ := 50 - (y : ℚ)
      if 35 ≤ ground_y then
        let snow_density : ℕ := if y < ratToNat snow_depth / 2 then 8 else 4
        if x % snow_density = 0 then
          some (DrawCmd.points [((x : ℚ), ground_y)] .white)
        else none
      else none)))
  ++ (([(120, 48, 25), (280, 47, 30)] : List (ℚ × ℚ × ℚ)).flatMap (fun md =>
    let mx := md.1
    let my := md.2.1
    let mw := md.2.2
    (List.range (ratToNat mw / 2)).flatMap (fun (w : ℕ) =>
      let mound_x := mx - mw / 2 + (w : ℚ) * 2
      let mound_height : ℚ := 3 * (1 - |(w : ℚ) - mw / 2| / (mw / 2))
      (List.range (ratToNat mound_height)).map (fun (h : ℕ) =>
        DrawCmd.points [(mound_x, my + (h : ℚ))] .white))))

/-- `canvas.rs::draw_grass_details`: grass blades swaying with the
animation clock. -/
def draw_grass_details (F : FloatOps) (clock : ℕ) : List DrawCmd :=
  let sway : ℤ := ratToInt (F.sin ((clock : ℚ) * 0.001) * 2)
  (stepBy (List.range 400) 12).flatMap (fun (x : ℕ) =>
    let grass_height : ℕ := 3 + x % 8
    (List.range grass_height).filterMap (fun (h : ℕ) =>
      let grass_x : ℚ := (x : ℚ) + (sway : ℚ) * ((h : ℚ) * 0.3)
      let grass_y : ℚ := 50 + (h : ℚ)
      if 0 ≤ grass_x ∧ grass_x < 400 then
        some (DrawCmd.points [(grass_x, grass_y)]
          (if h > grass_height / 2 then Color.green else Color.darkGray))
      else none))

/-- The condition-dependent ground features drawn at the end of
`canvas.rs::draw_ground_terrain`. -/
def ground_features (F : FloatOps) (clock : ℕ)
    (condition : WeatherCondition) : List DrawCmd :=
  match condition with
  | .rain | .drizzle => draw_puddles F
  | .snow => draw_snow_drifts F
  | _ => draw_grass_details F clock

/-- `canvas.rs::draw_ground_terrain`: horizon line, textured surface,
then condition-specific ground features. -/
def draw_ground_terrain (F : FloatOps) (clock : ℕ)
    (condition : WeatherCondition) : List DrawCmd :=
  ground_horizon ::
    (ground_surface_points F condition ++ ground_features F clock condition)

/-- `canvas.rs::draw_magnificent_sun`: corona rings, layered body colored
by temperature thresholds, 24 rays (every third one major), sun spots. -/
def draw_magnificent_sun (F : FloatOps) (x y temperature : ℚ) :
    List DrawCmd :=
  let sun_color :=
    if ratToInt temperature > 40 then Color.red
    else if ratToInt temperature > 30 then Color.lightRed
    else if ratToInt temperature > 20 then Color.yellow
    else if ratToInt temperature > 10 then Color.lightYellow
    else Color.white
  (stepBy (rangeFrom 25 35) 2).map (fun (radius : ℕ) =>
    DrawCmd.circle x y (radius : ℚ) .lightYellow)
  ++ (stepBy (rangeFrom 8 18).reverse 2).map (fun (radius : ℕ) =>
    let layer_color :=
      if radius > 14 then sun_color
      else if radius > 10 then Color.yellow
      else Color.lightYellow
    DrawCmd.circle x y (radius : ℚ) layer_color)
  ++ (List.range 24).flatMap (fun (ray : ℕ) =>
    let angle := (ray : ℚ) * F.pi / 12
    let is_major_ray := ray % 3 = 0
    let ray_length : ℚ := if is_major_ray then 45 else 30
    let thickness : ℕ := if is_major_ray then 4 else 2
    let start_radius : ℚ := 20
    let start_x := x + start_radius * F.cos angle
    let start_y := y + start_radius * F.sin angle
    let end_x := x + (start_radius + ray_length) * F.cos angle
    let end_y := y + (start_radius + ray_length) * F.sin angle
    (List.range thickness).map (fun (t : ℕ) =>
      let offset := ((t : ℚ) - (thickness : ℚ) / 2) * 0.5
      let perp_angle := angle + F.pi / 2
      DrawCmd.line (start_x + offset * F.cos perp_angle)
        (start_y + offset * F.sin perp_angle)
        (end_x + offset * F.cos perp_angle)
        (end_y + offset * F.sin perp_angle)
        (if t < thickness / 2 then sun_color else Color.yellow)))
  ++ ([(x - 5, y + 3), (x + 4, y - 2), (x - 2, y - 6)] :
      List (ℚ × ℚ)).map (fun s => DrawCmd.circle s.1 s.2 1.5 .yellow)

/-- `canvas.rs::draw_beautiful_moon`: glow rings, solid body, craters with
rim highlights, mare areas. -/
def draw_beautiful_moon (x y : ℚ) : List DrawCmd :=
  (stepBy (rangeFrom 20 28) 2).map (fun (radius : ℕ) =>
    DrawCmd.circle x y (radius : ℚ) .gray)
  ++ [DrawCmd.circle x y 15 .white]
  ++ (([(x - 6, y + 4, 3, Color.gray), (x + 5, y - 3, 2.5, Color.darkGray),
        (x - 2, y - 7, 2, Color.gray), (x + 8, y + 2, 1.5, Color.darkGray),
        (x - 4, y - 2, 1.8, Color.gray), (x + 2, y + 6, 2.2, Color.darkGray)] :
      List (ℚ × ℚ × ℚ × Color)).flatMap (fun cr =>
    [DrawCmd.circle cr.1 cr.2.1 cr.2.2.1 cr.2.2.2,
     DrawCmd.circle (cr.1 - 0.5) (cr.2.1 - 0.5) (cr.2.2.1 + 0.8) .white]))
  ++ (([(x - 3, y + 8, 4), (x + 6, y - 5, 3.5)] :
      List (ℚ × ℚ × ℚ)).map (fun m =>
    DrawCmd.circle m.1 m.2.1 m.2.2 .darkGray))

/-- `canvas.rs::draw_twinkling_star`: a cross-pattern star whose
brightness tier follows a clock-driven twinkle factor. -/
def draw_twinkling_star (F : FloatOps) (clock : ℕ) (x y size : ℚ) :
    List DrawCmd :=
  let twinkle : ℚ := max (F.sin ((clock : ℚ) * 0.01) * 0.3 + 0.7) 0.4
  let brightness : ℕ := ratToNat (size * twinkle)
  let star_color :=
    if brightness > 2 then Color.white
    else if brightness > 1 then Color.lightBlue
    else Color.gray
  [DrawCmd.points [(x, y)] star_color,
   DrawCmd.points
     [(x - size, y), (x + size, y), (x, y - size), (x, y + size),
      (x - size * 0.7, y - size * 0.7), (x + size * 0.7, y + size * 0.7),
      (x - size * 0.7, y + size * 0.7), (x + size * 0.7, y - size * 0.7)]
     star_color]

/-- `canvas.rs::draw_stellar_field`: two fixed constellation patterns
connected by faint lines plus nine scattered stars. -/
def draw_stellar_field (F : FloatOps) (clock : ℕ) : List DrawCmd :=
  let constellations : List (List (ℚ × ℚ)) :=
    [[(80, 170), (90, 175), (100, 172), (115, 170), (125, 165),
      (130, 160), (120, 155)],
     [(300, 180), (310, 175), (320, 170), (315, 160), (305, 165),
      (325, 165), (330, 155)]]
  (constellations.flatMap (fun constellation =>
    ((constellation.zip constellation.tail).map (fun p =>
      DrawCmd.line p.1.1 p.1.2 p.2.1 p.2.2 .darkGray))
    ++ constellation.flatMap (fun s =>
      draw_twinkling_star F clock s.1 s.2 3)))
  ++ (([(50, 185, 2), (150, 180, 2.5), (200, 190, 2), (250, 185, 3),
        (350, 175, 2.5), (370, 190, 2), (20, 165, 1.5), (180, 160, 2),
        (280, 195, 2.5)] : List (ℚ × ℚ × ℚ)).flatMap (fun s =>
    draw_twinkling_star F clock s.1 s.2.1 s.2.2))

/-- The cloud count computed by `canvas.rs::draw_cloud_formations`:
`(humidity / 15).max(2).min(8)` in `u8` arithmetic. -/
def cloud_count (humidity : ℕ) : ℕ := min (max (humidity / 15) 2) 8

/-- The fixed per-cloud placement table `cloud_data` of
`canvas.rs::draw_cloud_formations` (x, y, size, opacity). -/
def cloud_data : List (ℚ × ℚ × ℚ × ℚ) :=
  [(60, 140, 32, 0.8), (140, 155, 38, 1.0), (220, 135, 35, 0.9),
   (300, 150, 30, 0.7), (380, 140, 28, 0.8), (100, 125, 25, 0.6),
   (260, 165, 33, 0.9), (340, 130, 29, 0.7)]

/-- `canvas.rs::draw_realistic_cloud`: up to 8 overlapping puff circles in
3 depth layers, plus a dark underbelly and wisps for storm clouds. -/
def draw_realistic_cloud (x y size : ℚ) (base_color : Color)
    (_opacity : ℚ) (is_storm : Bool) : List DrawCmd :=
  let num_puffs : ℕ := if is_storm then 8 else 6
  let puff_positions : List (ℚ × ℚ × ℚ) :=
    [(x - size * 0.7, y + size * 0.2, size * 0.8),
     (x - size * 0.3, y + size * 0.6, size * 1.0),
     (x + size * 0.1, y + size * 0.3, size * 0.9),
     (x + size * 0.5, y + size * 0.1, size * 0.7),
     (x + size * 0.8, y - size * 0.2, size * 0.6),
     (x + size * 0.2, y - size * 0.4, size * 0.8),
     (x - size * 0.1, y - size * 0.1, size * 0.5),
     (x - size * 0.4, y - size * 0.3, size * 0.6)]
  ((List.range 3).flatMap (fun (layer : ℕ) =>
    let layer_offset : ℚ := (layer : ℚ) * 2
    let layer_color :=
      if is_storm then
        if layer = 0 then Color.black
        else if layer = 1 then Color.darkGray
        else Color.gray
      else
        if layer = 0 then base_color
        else if layer = 1 then Color.white
        else Color.lightBlue
    (puff_positions.take num_puffs).map (fun pp =>
      let adjusted_size := pp.2.2 * (1 - (layer : ℚ) * 0.1)
      DrawCmd.circle (pp.1 + layer_offset) (pp.2.1 + layer_offset)
        adjusted_size layer_color)))
  ++ (if is_storm then
        DrawCmd.rect (x - size) (y - size * 0.5) (size * 2) 12 .black ::
        (List.range 5).map (fun (wisp : ℕ) =>
          let wisp_x := x - size + (wisp : ℚ) * size * 0.5
          let wisp_y := y - size * 0.8
          DrawCmd.line wisp_x wisp_y (wisp_x + 8) (wisp_y - 15) .darkGray)
      else [])

/-- `canvas.rs::draw_cloud_shadow`: ground shadow with opacity falloff
from the shadow center. -/
def draw_cloud_shadow (cloud_x cloud_size : ℚ) : List DrawCmd :=
  let shadow_y : ℚ := 45
  let shadow_width := cloud_size * 1.5
  (List.range (ratToNat shadow_width)).filterMap (fun (x : ℕ) =>
    let shadow_x := cloud_x - shadow_width / 2 + (x : ℚ)
    if 0 ≤ shadow_x ∧ shadow_x < 400 then
      let opacity_factor : ℚ :=
        1 - |(x : ℚ) - shadow_width / 2| / (shadow_width / 2)
      if opacity_factor > 0.3 then
        some (DrawCmd.points [(shadow_x, shadow_y)] .darkGray)
      else none
    else none)

/-- `canvas.rs::draw_cloud_formations`: `cloud_count humidity` clouds from
the fixed placement table, with ground shadows on day (non-storm). -/
def draw_cloud_formations (humidity : ℕ) (is_day : Bool)
    (is_storm : Bool) : List DrawCmd :=
  let base_color :=
    if is_storm then Color.black
    else if is_day then Color.white
    else Color.gray
  let num_clouds := cloud_count humidity
  (cloud_data.take num_clouds).flatMap (fun cd =>
    draw_realistic_cloud cd.1 cd.2.1 cd.2.2.1 base_color cd.2.2.2 is_storm
    ++ (if is_day && !is_storm then draw_cloud_shadow cd.1 cd.2.2.1
        else []))

/-- `canvas.rs::draw_sun_through_clouds`: muted sun disc with 12 gradient
rays. -/
def draw_sun_through_clouds (F : FloatOps) (x y : ℚ) : List DrawCmd :=
  DrawCmd.circle x y 12 .lightYellow ::
  (List.range 12).flatMap (fun (ray : ℕ) =>
    let angle := (ray : ℚ) * F.pi / 6
    let ray_length : ℚ := 30 + ((ray % 3 : ℕ) : ℚ) * 10
    (List.range 6).map (fun (segment : ℕ) =>
      let seg_factor : ℚ := (segment : ℚ) / 6
      let seg_x := x + ray_length * seg_factor * F.cos angle
      let seg_y := y + ray_length * seg_factor * F.sin angle
      DrawCmd.points [(seg_x, seg_y)]
        (if seg_factor < 0.5 then Color.lightYellow else Color.yellow)))

/-- The animated raindrop field of `canvas.rs::draw_rain_system` (the
drop loops between the cloud base and the puddles). -/
def rain_drops (clock : ℕ) (heavy_rain : Bool) (wind_speed : ℚ) :
    List DrawCmd :=
  let animation_offset : ℕ := (clock / 120) % 80
  let drop_density : ℕ := if heavy_rain then 70 else 45
  let drop_length : ℚ := if heavy_rain then 18 else 12
  let wind_lean : ℚ := min (wind_speed * 0.8) 8
  (List.range drop_density).flatMap (fun (i : ℕ) =>
    (List.range 25).flatMap (fun (layer : ℕ) =>
      let base_x : ℚ := ((i * 6 : ℕ) : ℚ)
      let fall_speed : ℕ := if heavy_rain then 10 else 8
      let y_pos : ℚ :=
        (((layer * fall_speed + animation_offset + i * 2) % 140 + 60 :
          ℕ) : ℚ)
      let wind_offset := (y_pos - 60) * wind_lean * 0.02
      let final_x := base_x + wind_offset
      if 0 ≤ final_x ∧ final_x < 400 ∧ y_pos > 50 then
        let drop_bottom := y_pos - drop_length
        [DrawCmd.line final_x y_pos (final_x + wind_lean * 0.3)
           drop_bottom .blue,
         DrawCmd.line (final_x + 0.5) y_pos
           (final_x + 0.5 + wind_lean * 0.3) drop_bottom .lightBlue]
        ++ (if y_pos < 65 then
              [DrawCmd.points
                [(final_x - 3, 50), (final_x + 3, 50),
                 (final_x - 1.5, 48), (final_x + 1.5, 48),
                 (final_x, 46)] .lightBlue]
            else [])
      else []))

/-- `canvas.rs::draw_rain_system`: cloud base (humidity 90) plus an
animated raindrop field with wind skew, splashes and puddles. -/
def draw_rain_system (F : FloatOps) (clock : ℕ) (heavy_rain : Bool)
    (wind_speed : ℚ) : List DrawCmd :=
  draw_cloud_formations 90 true false
  ++ rain_drops clock heavy_rain wind_speed
  ++ draw_puddles F

/-- `canvas.rs::draw_lightning_bolt`: fixed jagged main path with six
parallel strokes per segment, left/right branches with sub-branches, and
a ground-strike flash. -/
def draw_lightning_bolt (start_x start_y : ℚ) : List DrawCmd :=
  let main_path : List (ℚ × ℚ) :=
    [(start_x, start_y), (start_x + 12, start_y - 25),
     (start_x - 8, start_y - 45), (start_x + 18, start_y - 70),
     (start_x - 5, start_y - 95), (start_x + 15, start_y - 120),
     (start_x + 2, start_y - 140)]
  ((main_path.zip main_path.tail).flatMap (fun seg =>
    (List.range 6).map (fun (stroke : ℕ) =>
      let offset := ((stroke : ℚ) - 2.5) * 0.8
      DrawCmd.line (seg.1.1 + offset) seg.1.2 (seg.2.1 + offset) seg.2.2
        (if stroke ≤ 1 then Color.white
         else if stroke ≤ 3 then Color.lightYellow
         else Color.yellow))))
  ++ ((stepBy (main_path.enum.drop 1) 2).flatMap (fun p =>
    let i := p.1
    let x := p.2.1
    let y := p.2.2
    let branch_end_x := x - 20 - (i : ℚ) * 3
    let branch_end_y := y - 15
    let branch_end_x2 := x + 15 + (i : ℚ) * 2
    let branch_end_y2 := y - 12
    [DrawCmd.line x y branch_end_x branch_end_y .lightYellow,
     DrawCmd.line x y branch_end_x2 branch_end_y2 .yellow,
     DrawCmd.line branch_end_x2 branch_end_y2 (branch_end_x2 + 8)
       (branch_end_y2 - 8) .yellow]))
  ++ [DrawCmd.circle (start_x + 2) 50 8 .white]

/-- The lightning triggering of `canvas.rs::draw_storm_system`: bolts are
drawn only when `clock % 4000` falls in the trigger windows. -/
def storm_lightning (clock : ℕ) : List DrawCmd :=
  let lightning_cycle := clock % 4000
  (if lightning_cycle < 150 ∨
      (lightning_cycle > 2000 ∧ lightning_cycle < 2100) then
    draw_lightning_bolt 180 160
  else [])
  ++ (if lightning_cycle > 500 ∧ lightning_cycle < 600 then
    draw_lightning_bolt 280 150
  else [])

/-- `canvas.rs::draw_torrential_rain`: dense thick-stroke storm rain. -/
def draw_torrential_rain (clock : ℕ) (wind_speed : ℚ) : List DrawCmd :=
  let rain_offset : ℕ := (clock / 80) % 60
  let wind_lean : ℚ := min (wind_speed * 1.2) 12
  (List.range 90).flatMap (fun (i : ℕ) =>
    (List.range 30).flatMap (fun (layer : ℕ) =>
      let base_x : ℚ := ((i * 5 : ℕ) : ℚ)
      let y_pos : ℚ :=
        (((layer * 12 + rain_offset + i * 3) % 120 + 60 : ℕ) : ℚ)
      let wind_offset := (y_pos - 60) * wind_lean * 0.03
      let final_x := base_x + wind_offset
      if 0 ≤ final_x ∧ final_x < 400 ∧ y_pos > 50 then
        let drop_length : ℚ := 25
        let drop_bottom := y_pos - drop_length
        (List.range 4).map (fun (thickness : ℕ) =>
          DrawCmd.line (final_x + (thickness : ℚ) * 0.5) y_pos
            (final_x + (thickness : ℚ) * 0.5 + wind_lean * 0.4) drop_bottom
            (if thickness < 2 then Color.blue else Color.lightBlue))
      else []))

/-- `canvas.rs::draw_storm_ground_effects`: large puddles with animated
ripple rings. -/
def draw_storm_ground_effects (F : FloatOps) (clock : ℕ) : List DrawCmd :=
  let storm_puddles : List (ℚ × ℚ × ℚ) :=
    [(80, 40, 50), (200, 43, 60), (320, 41, 45)]
  let ripple_phase : ℕ := (clock / 200) % 20
  storm_puddles.flatMap (fun pd =>
    let px := pd.1
    let py := pd.2.1
    let width := pd.2.2
    ((List.range (ratToNat width / 3)).map (fun (w : ℕ) =>
      let puddle_x := px - width / 2 + (w : ℚ) * 3
      DrawCmd.points [(puddle_x, py), (puddle_x + 1, py)] .blue))
    ++ ((List.range 3).flatMap (fun (ripple : ℕ) =>
      let ripple_radius : ℚ := (((ripple_phase + ripple * 7) % 20 : ℕ) : ℚ) * 2
      if ripple_radius < width / 2 then
        (stepBy (List.range 360) 30).filterMap (fun (angle : ℕ) =>
          let angle_rad := (angle : ℚ) * F.pi / 180
          let ripple_x := px + ripple_radius * F.cos angle_rad
          let ripple_y := py + ripple_radius * 0.3 * F.sin angle_rad
          if px - width / 2 ≤ ripple_x ∧ ripple_x ≤ px + width / 2 then
            some (DrawCmd.points [(ripple_x, ripple_y)] .lightBlue)
          else none)
      else [])))

/-- `canvas.rs::draw_storm_system`: storm clouds, clock-windowed
lightning, torrential rain, and ground effects. -/
def draw_storm_system (F : FloatOps) (clock : ℕ) (wind_speed : ℚ) :
    List DrawCmd :=
  draw_cloud_formations 95 true true
  ++ storm_lightning clock
  ++ draw_torrential_rain clock wind_speed
  ++ draw_storm_ground_effects F clock

/-- `canvas.rs::draw_detailed_snowflake`: one of six procedural flake
patterns selected by `flake_type`. -/
def draw_detailed_snowflake (F : FloatOps) (x y : ℚ) (flake_type : ℕ)
    (temperature : ℚ) : List DrawCmd :=
  let size : ℚ := if temperature < -10 then 4 else 3
  if flake_type = 0 then
    (List.range 6).flatMap (fun (arm : ℕ) =>
      let angle := (arm : ℚ) * F.pi / 3
      let end_x := x + size * F.cos angle
      let end_y := y + size * F.sin angle
      let mid_x := x + size * 0.6 * F.cos angle
      let mid_y := y + size * 0.6 * F.sin angle
      let perp_angle := angle + F.pi / 2
      [DrawCmd.line x y end_x end_y .white,
       DrawCmd.line (mid_x + 1.5 * F.cos perp_angle)
         (mid_y + 1.5 * F.sin perp_angle)
         (mid_x - 1.5 * F.cos perp_angle)
         (mid_y - 1.5 * F.sin perp_angle) .white])
  else if flake_type = 1 then
    (let hex_points := (List.range 6).map (fun (i : ℕ) =>
      let angle := (i : ℚ) * F.pi / 3
      (x + size * F.cos angle, y + size * F.sin angle))
     ((List.range 6).map (fun (i : ℕ) =>
       let p := hex_points.getD i (0, 0)
       let q := hex_points.getD ((i + 1) % 6) (0, 0)
       DrawCmd.line p.1 p.2 q.1 q.2 .white))
     ++ [DrawCmd.points [(x, y)] .white])
  else if flake_type = 2 then
    ([(x, y - size), (x, y + size), (x - size, y), (x + size, y)] :
        List (ℚ × ℚ)).flatMap (fun e =>
      DrawCmd.line x y e.1 e.2 .white ::
      (rangeFrom 1 3).map (fun (branch : ℕ) =>
        let branch_factor : ℚ := (branch : ℚ) / 3
        let branch_x := x + (e.1 - x) * branch_factor
        let branch_y := y + (e.2 - y) * branch_factor
        DrawCmd.points
          [(branch_x + 1, branch_y + 1), (branch_x - 1, branch_y - 1)]
          .white))
  else if flake_type = 3 then
    (List.range 8).map (fun (arm : ℕ) =>
      let angle := (arm : ℚ) * F.pi / 4
      let arm_length := if arm % 2 = 0 then size else size * 0.7
      DrawCmd.line x y (x + arm_length * F.cos angle)
        (y + arm_length * F.sin angle) .white)
  else if flake_type = 4 then
    [DrawCmd.rect (x - 1) (y - size) 2 (size * 2) .white,
     DrawCmd.line (x - 2) (y - size) (x + 2) (y - size) .white,
     DrawCmd.line (x - 2) (y + size) (x + 2) (y + size) .white]
  else
    [DrawCmd.points
      [(x, y), (x - size, y), (x + size, y), (x, y - size), (x, y + size)]
      .white]

/-- The animated flake field of `canvas.rs::draw_snow_system` (the flake
loops between the cloud base and the ground drifts). -/
def snow_flake_field (F : FloatOps) (clock : ℕ) (temperature : ℚ)
    (wind_speed : ℚ) : List DrawCmd :=
  let snow_frame : ℕ := (clock / 500) % 60
  let wind_drift := wind_speed * 0.8
  let flake_count : ℕ := if temperature < -5 then 45 else 35
  (List.range flake_count).flatMap (fun (i : ℕ) =>
    (List.range 20).flatMap (fun (layer : ℕ) =>
      let base_x : ℚ := ((i * 9 : ℕ) : ℚ)
      let base_drift := 12 * F.sin ((layer : ℚ) * 0.15)
      let wind_drift_effect := (layer : ℚ) * wind_drift * 0.02
      let final_x := base_x + base_drift + wind_drift_effect
      let fall_speed : ℕ := if temperature < -10 then 8 else 6
      let y_pos : ℚ :=
        (((layer * fall_speed + snow_frame + i * 4) % 140 + 60 : ℕ) : ℚ)
      if 0 ≤ final_x ∧ final_x < 400 ∧ y_pos < 180 then
        draw_detailed_snowflake F final_x y_pos ((i + layer) % 6)
          temperature
      else []))

/-- `canvas.rs::draw_snow_system`: snow clouds, an animated flake field
(count keyed by temperature), and ground snow drifts. -/
def draw_snow_system (F : FloatOps) (clock : ℕ) (temperature : ℚ)
    (wind_speed : ℚ) : List DrawCmd :=
  draw_cloud_formations 80 true false
  ++ snow_flake_field F clock temperature wind_speed
  ++ draw_snow_drifts F

/-- `canvas.rs::draw_fog_tendrils`: S-shaped tendril polylines drifting
with the clock and wind. -/
def draw_fog_tendrils (F : FloatOps) (clock : ℕ) (wind_speed : ℚ)
    (thick_fog : Bool) : List DrawCmd :=
  let tendril_count : ℕ := if thick_fog then 12 else 8
  let motion := F.sin ((clock : ℚ) * 0.01) * wind_speed * 0.3
  (List.range tendril_count).flatMap (fun (tendril : ℕ) =>
    let start_x : ℚ := ((tendril * 35 : ℕ) : ℚ) + motion
    let start_y : ℚ := 80 + (tendril : ℚ) * 3
    let tendril_points : List (ℚ × ℚ) :=
      [(start_x, start_y), (start_x + 20 + motion * 0.5, start_y + 12),
       (start_x + 35 + motion, start_y + 8),
       (start_x + 50 + motion * 1.5, start_y + 15),
       (start_x + 65 + motion * 0.8, start_y + 5)]
    (tendril_points.zip tendril_points.tail).flatMap (fun seg =>
      if 0 ≤ seg.1.1 ∧ seg.1.1 < 400 ∧ 0 ≤ seg.2.1 ∧ seg.2.1 < 400 then
        [DrawCmd.line seg.1.1 seg.1.2 seg.2.1 seg.2.2 .gray,
         DrawCmd.line seg.1.1 (seg.1.2 + 1) seg.2.1 (seg.2.2 + 1) .white]
        ++ (if thick_fog then
              [DrawCmd.line seg.1.1 (seg.1.2 - 1) seg.2.1 (seg.2.2 - 1)
                .darkGray]
            else [])
      else []))

/-- `canvas.rs::draw_fog_system`: multi-layer horizontal streak bands with
two superimposed sine drifts, plus tendrils. -/
def draw_fog_system (F : FloatOps) (clock : ℕ) (thick_fog : Bool)
    (wind_speed : ℚ) : List DrawCmd :=
  let layers : ℕ := if thick_fog then 18 else 12
  let fog_drift := F.sin ((clock : ℚ) * 0.02) * wind_speed * 0.5
  ((List.range layers).flatMap (fun (layer : ℕ) =>
    let base_y : ℚ := 55 + (layer : ℚ) * 7
    let layer_density : ℕ := if thick_fog then 6 else 8
    let fog_opacity : ℚ := 1 - ((layer : ℚ) / (layers : ℚ)) * 0.6
    (stepBy (List.range 400) layer_density).flatMap (fun (x : ℕ) =>
      let wave1 := 8 * F.sin ((x : ℚ) * 0.015 + fog_drift)
      let wave2 := 4 * F.cos ((x : ℚ) * 0.03 + (layer : ℚ) * 0.5)
      let final_y := base_y + wave1 + wave2
      let fog_color :=
        if thick_fog then
          if layer % 4 = 0 then Color.white
          else if layer % 4 = 1 then Color.gray
          else if layer % 4 = 2 then Color.darkGray
          else Color.black
        else
          if layer % 4 = 0 then Color.white
          else if layer % 4 = 1 then Color.gray
          else Color.darkGray
      if fog_opacity > 0.3 then
        DrawCmd.line (x : ℚ) final_y ((x + layer_density : ℕ) : ℚ) final_y
          fog_color ::
        (if x % (layer_density * 2) = 0 then
          [DrawCmd.line (x : ℚ) final_y (x : ℚ) (final_y + 5) fog_color]
        else [])
      else [])))
  ++ draw_fog_tendrils F clock wind_speed thick_fog

/-- `canvas.rs::draw_wind_patterns`: streaming sine-wave lines, count
scaled by wind speed, scrolling at a clock-driven offset. -/
def draw_wind_patterns (F : FloatOps) (clock : ℕ) (wind_speed : ℚ) :
    List DrawCmd :=
  let motion_offset : ℕ := (clock / 150) % 200
  let num_streams : ℕ := ratToNat (max (min (wind_speed / 6) 10) 3)
  (List.range num_streams).flatMap (fun (stream : ℕ) =>
    let base_y : ℚ := 70 + (stream : ℚ) * 18
    let wave_amplitude := 8 + wind_speed * 0.3
    let stream_speed := 3 + wind_speed * 0.2
    (List.range 25).flatMap (fun (segment : ℕ) =>
      let x : ℚ := ((segment * 18 : ℕ) : ℚ)
      let moving_x := ratRem (x + (motion_offset : ℚ) * stream_speed) 450
      if moving_x < 400 then
        let wave_y :=
          base_y + wave_amplitude * F.sin (moving_x * 0.02 + (stream : ℚ))
        let end_x := moving_x + 25
        let end_y := wave_y + 2 * F.sin (end_x * 0.02)
        let wind_color :=
          if ratToNat wind_speed > 20 then Color.red
          else if ratToNat wind_speed > 15 then Color.yellow
          else if ratToNat wind_speed > 10 then Color.white
          else Color.gray
        DrawCmd.line moving_x wave_y (min end_x 400) end_y wind_color ::
        (if segment % 3 = 0 then
          [DrawCmd.points
            [(moving_x + 8, wave_y - 2), (moving_x + 12, wave_y + 1),
             (moving_x + 16, wave_y - 1)] wind_color]
        else [])
      else []))

/-- The thermometer tube height computed by
`canvas.rs::draw_weather_indicators`: `(temperature.abs() * 1.5).min(35.0)`. -/
def indicator_temp_height (temperature : ℚ) : ℚ :=
  min (|temperature| * 1.5) 35

/-- The fixed frame rectangle enclosing the data-indicator panel
(the final draw of `canvas.rs::draw_weather_indicators`). -/
def indicator_panel_frame : DrawCmd := .rect 10 140 45 50 .white

/-- `canvas.rs::draw_weather_indicators`: thermometer, humidity drops,
wind flag and the enclosing panel frame. -/
def draw_weather_indicators (temperature : ℚ) (humidity : ℕ)
    (wind_speed : ℚ) : List DrawCmd :=
  let panel_x : ℚ := 15
  let panel_y : ℚ := 185
  let temp_height := indicator_temp_height temperature
  let temp_color :=
    if ratToInt temperature > 35 then Color.red
    else if ratToInt temperature > 25 then Color.lightRed
    else if ratToInt temperature > 15 then Color.yellow
    else if ratToInt temperature > 5 then Color.green
    else if ratToInt temperature > -5 then Color.lightBlue
    else Color.blue
  DrawCmd.circle panel_x (panel_y - 40) 3 temp_color ::
  ((List.range (ratToNat temp_height)).map (fun (h : ℕ) =>
    DrawCmd.points [(panel_x, panel_y - 37 + (h : ℚ))] temp_color))
  ++ ((List.range (min (humidity / 20) 5)).flatMap (fun (drop : ℕ) =>
    let drop_x := panel_x + 12
    let drop_y := panel_y - 35 + (drop : ℚ) * 8
    [DrawCmd.circle drop_x drop_y 2 .blue,
     DrawCmd.points [(drop_x, drop_y - 3)] .lightBlue]))
  ++ (let wind_strength : ℕ := ratToNat (min (wind_speed / 5) 6)
      let flag_x := panel_x + 25
      let flag_y := panel_y - 35
      DrawCmd.line flag_x flag_y flag_x (flag_y + 30) .darkGray ::
      (List.range wind_strength).map (fun (segment : ℕ) =>
        let segment_y := flag_y + (segment : ℚ) * 4
        let flag_length : ℚ := 8 - (segment : ℚ) * 1
        DrawCmd.line flag_x segment_y (flag_x + flag_length) segment_y
          .red))
  ++ [indicator_panel_frame]

/-- The condition-specific centerpiece dispatch inside the paint closure
of `canvas.rs::render_weather_canvas` (the `match condition` block). -/
def condition_centerpiece (F : FloatOps) (clock : ℕ)
    (condition : WeatherCondition) (temperature : ℚ) (humidity : ℕ)
    (wind_speed : ℚ) (is_day : Bool) : List DrawCmd :=
  match condition with
  | .clear =>
      if is_day then draw_magnificent_sun F 320 160 temperature
      else draw_beautiful_moon 320 160 ++ draw_stellar_field F clock
  | .clouds =>
      draw_cloud_formations humidity is_day false
      ++ (if is_day then draw_sun_through_clouds F 340 150 else [])
  | .rain => draw_rain_system F clock true wind_speed
  | .drizzle => draw_rain_system F clock false wind_speed
  | .thunderstorm => draw_storm_system F clock wind_speed
  | .snow => draw_snow_system F clock temperature wind_speed
  | .fog => draw_fog_system F clock true wind_speed
  | .mist => draw_fog_system F clock false wind_speed
  | _ => draw_cloud_formations 50 is_day false

/-- The wind overlay of `canvas.rs::render_weather_canvas`: drawn only
when wind speed exceeds 8. -/
def wind_overlay (F : FloatOps) (clock : ℕ) (wind_speed : ℚ) :
    List DrawCmd :=
  if wind_speed > 8 then draw_wind_patterns F clock wind_speed else []

/-- `canvas.rs::render_weather_canvas`: the full ordered scene of one
frame — sky, ground, centerpiece, wind overlay, data indicators. -/
def render_weather_canvas (F : FloatOps) (clock : ℕ)
    (condition : WeatherCondition) (temperature : ℚ) (humidity : ℕ)
    (wind_speed : ℚ) (is_day : Bool) : List DrawCmd :=
  draw_sky_gradient is_day temperature condition
  ++ draw_ground_terrain F clock condition
  ++ condition_centerpiece F clock condition temperature humidity
       wind_speed is_day
  ++ wind_overlay F clock wind_speed
  ++ draw_weather_indicators temperature humidity wind_speed

/-- The warning-triangle corner points of the no-data fallback panel in
`canvas.rs::render_current_weather_canvas`. -/
def no_data_warning_points : List (ℚ × ℚ) :=
  [(200, 90), (190, 110), (210, 110)]

/-- The fallback error-panel scene drawn by
`canvas.rs::render_current_weather_canvas` when no hourly data exists:
background rectangle, warning triangle, exclamation mark. -/
def no_data_panel : List DrawCmd :=
  DrawCmd.rect 100 80 200 40 .darkGray ::
  ((List.range 3).map (fun (i : ℕ) =>
    let p := no_data_warning_points.getD i (0, 0)
    let q := no_data_warning_points.getD ((i + 1) % 3) (0, 0)
    DrawCmd.line p.1 p.2 q.1 q.2 .red))
  ++ [DrawCmd.line 200 95 200 105 .red,
      DrawCmd.points [(200, 108)] .red]

/-- `canvas.rs::render_current_weather_canvas`: render the weather scene
from the first hourly entry, or the no-data fallback panel. -/
def render_current_weather_canvas (F : FloatOps) (clock : ℕ)
    (hourly_data : List HourlyForecast) : List DrawCmd :=
  match hourly_data with
  | current :: _ =>
      render_weather_canvas F clock current.main_condition
        current.temperature current.humidity current.wind_speed
        (is_daytime current.timestamp)
  | [] => no_data_panel

/-! ### Forecast mini-scene generator (`canvas.rs::render_forecast_canvas`) -/

/-- The ground line and texture of `canvas.rs::render_forecast_canvas`. -/
def forecast_ground : List DrawCmd :=
  DrawCmd.line 0 20 500 20 .green ::
  (stepBy (List.range 500) 15).map (fun (x : ℕ) =>
    DrawCmd.points [((x : ℚ), 18), ((x : ℚ), 19)] .darkGray)

/-- The per-day condition-keyed miniature icon of
`canvas.rs::render_forecast_canvas`. -/
def forecast_mini_scene (F : FloatOps) (x_offset : ℚ)
    (day : DailyForecast) : List DrawCmd :=
  match day.main_condition with
  | .clear =>
      DrawCmd.circle (x_offset + 30) 65 10 .yellow ::
      (List.range 12).map (fun (ray : ℕ) =>
        let angle := (ray : ℚ) * F.pi / 6
        let ray_length : ℚ := if ray % 2 = 0 then 18 else 14
        DrawCmd.line (x_offset + 30) 65
          (x_offset + 30 + ray_length * F.cos angle)
          (65 + ray_length * F.sin angle) .lightYellow)
  | .clouds => draw_realistic_cloud (x_offset + 30) 65 8 .white 1 false
  | .rain | .drizzle =>
      draw_realistic_cloud (x_offset + 30) 70 7 .gray 1 false
      ++ (List.range 8).map (fun (drop : ℕ) =>
        let drop_x := x_offset + 25 + (drop : ℚ) * 2
        DrawCmd.line drop_x 60 drop_x 45 .blue)
  | .thunderstorm =>
      draw_realistic_cloud (x_offset + 30) 70 8 .darkGray 1 true
      ++ (let lightning_points : List (ℚ × ℚ) :=
            [(x_offset + 30, 60), (x_offset + 35, 50), (x_offset + 28, 40),
             (x_offset + 33, 30)]
          (lightning_points.zip lightning_points.tail).map (fun seg =>
            DrawCmd.line seg.1.1 seg.1.2 seg.2.1 seg.2.2 .lightYellow))
  | .snow =>
      draw_realistic_cloud (x_offset + 30) 70 7 .white 1 false
      ++ (([(x_offset + 25, 55), (x_offset + 28, 50), (x_offset + 32, 58),
            (x_offset + 35, 52), (x_offset + 30, 45), (x_offset + 26, 48)] :
          List (ℚ × ℚ)).map (fun s =>
        DrawCmd.points
          [(s.1, s.2), (s.1 - 2, s.2), (s.1 + 2, s.2), (s.1, s.2 - 2),
           (s.1, s.2 + 2)] .white))
  | .fog | .mist =>
      (List.range 5).map (fun (layer : ℕ) =>
        let fog_y : ℚ := 45 + (layer : ℚ) * 4
        DrawCmd.line (x_offset + 20) fog_y (x_offset + 50) fog_y
          (if layer % 2 = 0 then Color.gray else Color.white))
  | _ =>
      [DrawCmd.circle (x_offset + 30) 65 8 .gray,
       DrawCmd.line (x_offset + 27) 62 (x_offset + 30) 60 .white,
       DrawCmd.line (x_offset + 30) 60 (x_offset + 33) 62 .white,
       DrawCmd.line (x_offset + 33) 62 (x_offset + 30) 65 .white,
       DrawCmd.points [(x_offset + 30, 68)] .white]

/-- The per-day temperature bar of `canvas.rs::render_forecast_canvas`:
height `min(temp_max * 0.8, 25)`, three-tier color banding. -/
def forecast_temp_bar (x_offset : ℚ) (day : DailyForecast) :
    List DrawCmd :=
  let temp_height : ℚ := min (day.temp_max * 0.8) 25
  let temp_color :=
    if ratToInt day.temp_max > 35 then Color.red
    else if ratToInt day.temp_max > 25 then Color.lightRed
    else if ratToInt day.temp_max > 15 then Color.yellow
    else if ratToInt day.temp_max > 5 then Color.green
    else if ratToInt day.temp_max > -5 then Color.lightBlue
    else Color.blue
  (List.range (ratToNat temp_height)).map (fun (h : ℕ) =>
    let bar_color :=
      if h > ratToNat temp_height * 3 / 4 then temp_color
      else if h > ratToNat temp_height / 2 then Color.yellow
      else Color.green
    DrawCmd.points [(x_offset + 55, 20 + (h : ℚ))] bar_color)

/-- The between-days separator of `canvas.rs::render_forecast_canvas`:
a full-height vertical line plus five decorative dots. -/
def day_separator (x_offset : ℚ) : List DrawCmd :=
  DrawCmd.line (x_offset + 70) 0 (x_offset + 70) 100 .darkGray ::
  (List.range 5).map (fun (dot : ℕ) =>
    DrawCmd.points [(x_offset + 70, 20 + (dot : ℚ) * 15)] .gray)

/-- One day slot of `canvas.rs::render_forecast_canvas`: mini scene,
temperature bar, and (for indices below 6) the day separator. -/
def forecast_day_block (F : FloatOps) (i : ℕ) (day : DailyForecast) :
    List DrawCmd :=
  let x_offset : ℚ := (i : ℚ) * 70 + 10
  forecast_mini_scene F x_offset day
  ++ forecast_temp_bar x_offset day
  ++ (if i < 6 then day_separator x_offset else [])

/-- `canvas.rs::render_forecast_canvas`: ground strip followed by one day
slot per daily entry, for at most 7 entries. -/
def render_forecast_canvas (F : FloatOps)
    (daily_data : List DailyForecast) : List DrawCmd :=
  forecast_ground
  ++ (daily_data.take 7).enum.flatMap (fun p =>
    forecast_day_block F p.1 p.2)

/-- Recognizer for the day-separator line of the forecast canvas: a
full-height (`y` from 0 to 100) vertical dark-gray line; no other command
the forecast canvas can emit has this shape. -/
def is_day_sep (cmd : DrawCmd) : Bool :=
  match cmd with
  | .line x1 y1 x2 y2 color =>
      decide (x1 = x2 ∧ y1 = 0 ∧ y2 = 100 ∧ color = Color.darkGray)
  | _ => false

/-- The cloud-formation call made by the centerpiece branch for each
condition (`[]` for the branches that draw no cloud formation): these
draws are independent of the animation clock. -/
def cloud_segment (condition : WeatherCondition) (humidity : ℕ)
    (is_day : Bool) : List DrawCmd :=
  match condition with
  | .clear | .fog | .mist => []
  | .clouds => draw_cloud_formations humidity is_day false
  | .rain | .drizzle => draw_cloud_formations 90 true false
  | .thunderstorm => draw_cloud_formations 95 true true
  | .snow => draw_cloud_formations 80 true false
  | _ => draw_cloud_formations 50 is_day false

/-- A concrete hourly forecast entry used to evaluate witnesses
(timestamp 25200 s = 07:00 UTC). -/
def sample_hour : HourlyForecast :=
  { timestamp := 25200, temperature := 21, feels_like := 20, humidity := 60,
    pressure := 1012, wind_speed := 5, wind_direction := 90,
    conditions := [], main_condition := .clear, pop := 0.2,
    visibility := 10000, clouds := 40, rain := none, snow := none }

/-- A concrete daily forecast entry used to evaluate witnesses and
counterexamples. -/
def sample_day : DailyForecast :=
  { date := 0, sunrise := 21600, sunset := 64800, temp_morning := 12,
    temp_day := 18, temp_evening := 15, temp_night := 9, temp_min := 8,
    temp_max := 20, feels_like_day := 17, feels_like_night := 8,
    pressure := 1010, humidity := 55, wind_speed := 4,
    wind_direction := 180, conditions := [], main_condition := .clouds,
    clouds := 60, pop := 0.1, rain := none, snow := none, uv_index := 3 }

/-- A concrete UI state used to evaluate witnesses. -/
def sample_state : UiState :=
  { active_tab := .currentWeather, hourly_data := [sample_hour],
    daily_data := [sample_day],
    location :=
      { name := "Berlin", country := "Germany", country_code := "DE",
        latitude := 52.52, longitude := 13.405,
        timezone := "Europe/Berlin", region := none, state := none },
    config :=
      { units := "metric", location := none, json_output := false,
        animation_enabled := true, detail_level := .standard } }

/-! ### Claim theorems -/

/-- Claim C2: the tab transition functions are cyclic inverses —
`next (next (next CurrentWeather)) = CurrentWeather`, and
`prev (next t) = t` for every tab `t`. -/
theorem tab_transitions_cyclic :
    TuiTab.currentWeather.next.next.next = TuiTab.currentWeather ∧
    ∀ t : TuiTab, t.next.prev = t := by
  refine ⟨rfl, fun t => ?_⟩
  cases t <;> rfl

/-- Claim C1: for key-press events in any tab state, `1`/`2`/`3` select
CurrentWeather/WeatherForecast/Calendar directly, `q` or Escape quits the
loop, and every key other than these and the next/prev navigation keys
leaves the tab unchanged (and is handled without error). -/
theorem key_dispatch_correct (tab : TuiTab) :
    handle_event tab (.key (.char '1') .press) = .cont .currentWeather ∧
    handle_event tab (.key (.char '2') .press) = .cont .weatherForecast ∧
    handle_event tab (.key (.char '3') .press) = .cont .calendar ∧
    handle_event tab (.key (.char 'q') .press) = .quit ∧
    handle_event tab (.key .esc .press) = .quit ∧
    ∀ k : KeyCode,
      k ∉ ([.char 'q', .char '1', .char '2', .char '3', .esc, .right,
            .tabKey, .left, .backTab] : List KeyCode) →
      handle_event tab (.key k .press) = .cont tab := by
  refine ⟨rfl, rfl, rfl, rfl, rfl, fun k hk => ?_⟩
  cases k <;> simp_all [handle_event, handle_key]

/-- Witness for C1 at a concrete non-bound key. -/
theorem key_dispatch_correct_witness :
    handle_event .weatherForecast (.key (.char 'x') .press) =
      .cont .weatherForecast :=
  (key_dispatch_correct .weatherForecast).2.2.2.2.2 (.char 'x') (by decide)

/-- Claim C9: over the entire lifetime of the render loop, only the
tab-selection field of the controller state changes — the hourly and
daily forecast data, the location, and the configuration are preserved
by every processed input event. -/
theorem run_loop_preserves_data (s : UiState) (evs : List TermEvent) :
    (run_loop s evs).hourly_data = s.hourly_data ∧
    (run_loop s evs).daily_data = s.daily_data ∧
    (run_loop s evs).location = s.location ∧
    (run_loop s evs).config = s.config := by
  induction evs generalizing s with
  | nil => exact ⟨rfl, rfl, rfl, rfl⟩
  | cons e es ih =>
      have hrl : run_loop s (e :: es) =
          match ui_step s e with
          | none => s
          | some s' => run_loop s' es := rfl
      rcases h : ui_step s e with _ | s'
      · rw [hrl, h]
        exact ⟨rfl, rfl, rfl, rfl⟩
      · rw [hrl, h]
        have hs' : s'.hourly_data = s.hourly_data ∧
            s'.daily_data = s.daily_data ∧ s'.location = s.location ∧
            s'.config = s.config := by
          unfold ui_step at h
          rcases hev : handle_event s.active_tab e with _ | t <;>
            rw [hev] at h
          · exact absurd h (by simp)
          · cases h
            exact ⟨rfl, rfl, rfl, rfl⟩
        obtain ⟨h1, h2, h3, h4⟩ := ih s'
        exact ⟨h1.trans hs'.1, h2.trans hs'.2.1, h3.trans hs'.2.2.1,
          h4.trans hs'.2.2.2⟩

/-- Claim C3: with an empty hourly-forecast list the current-weather
renderer produces the fallback error panel — a non-empty command list
containing the three warning-triangle edges — and with a non-empty list
it renders the weather scene from the first entry. -/
theorem current_canvas_fallback (F : FloatOps) (clock : ℕ)
    (h : HourlyForecast) (rest : List HourlyForecast) :
    render_current_weather_canvas F clock [] = no_data_panel ∧
    no_data_panel ≠ [] ∧
    DrawCmd.line 200 90 190 110 .red ∈ no_data_panel ∧
    DrawCmd.line 190 110 210 110 .red ∈ no_data_panel ∧
    DrawCmd.line 210 110 200 90 .red ∈ no_data_panel ∧
    render_current_weather_canvas F clock (h :: rest) =
      render_weather_canvas F clock h.main_condition h.temperature
        h.humidity h.wind_speed (is_daytime h.timestamp) :=
  ⟨rfl, by decide, by decide, by decide, by decide, rfl⟩

/-- Claim C10: the day/night flag is computed solely from the UTC hour of
the first hourly entry's timestamp — day iff the hour is in `[6, 18)`;
two timestamps with equal UTC hour give the same flag, and the rendered
scene depends only on the first entry (sunrise/sunset fields and the
location's timezone are not inputs of the renderer). -/
theorem day_flag_from_utc_hour (ts1 ts2 : ℤ) (F : FloatOps) (clock : ℕ)
    (h : HourlyForecast) (rest rest' : List HourlyForecast) :
    (is_daytime ts1 = true ↔ 6 ≤ utc_hour ts1 ∧ utc_hour ts1 < 18) ∧
    (utc_hour ts1 = utc_hour ts2 → is_daytime ts1 = is_daytime ts2) ∧
    render_current_weather_canvas F clock (h :: rest) =
      render_weather_canvas F clock h.main_condition h.temperature
        h.humidity h.wind_speed (is_daytime h.timestamp) ∧
    render_current_weather_canvas F clock (h :: rest) =
      render_current_weather_canvas F clock (h :: rest') := by
  refine ⟨by simp [is_daytime], fun hh => by simp [is_daytime, hh],
    rfl, rfl⟩

/-- Witness for C10: 07:00 UTC on two consecutive days gives the same
(daytime) flag. -/
theorem day_flag_from_utc_hour_witness :
    is_daytime 25200 = is_daytime (25200 + 86400) :=
  (day_flag_from_utc_hour 25200 (25200 + 86400) F0 0 sample_hour [] []).2.1
    (by decide)

/-- Claim C6: the number of clouds drawn by a Clouds scene equals
`clamp(humidity / 15, 2, 8)` in integer arithmetic (one cloud per entry
taken from the placement table), hence always lies in `[2, 8]`; boundary
values 0, 15, 120, 150 give 2, 2, 8, 8. -/
theorem clouds_count_clamped (humidity : ℕ) (hum_u8 : humidity ≤ 255) :
    (cloud_data.take (cloud_count humidity)).length =
      min (max (humidity / 15) 2) 8 ∧
    2 ≤ cloud_count humidity ∧ cloud_count humidity ≤ 8 ∧
    cloud_count 0 = 2 ∧ cloud_count 15 = 2 ∧ cloud_count 120 = 8 ∧
    cloud_count 150 = 8 := by
  refine ⟨?_, ?_, ?_, by decide, by decide, by decide, by decide⟩
  · simp only [cloud_count, cloud_data, List.length_take, List.length_cons,
      List.length_nil]
    omega
  · simp only [cloud_count]
    omega
  · simp only [cloud_count]
    omega

/-- Witness for C6 at humidity 100 (count 6). -/
theorem clouds_count_clamped_witness :
    (cloud_data.take (cloud_count 100)).length =
      min (max (100 / 15) 2) 8 ∧ 2 ≤ cloud_count 100 ∧
    cloud_count 100 ≤ 8 :=
  ⟨(clouds_count_clamped 100 (by decide)).1,
   (clouds_count_clamped 100 (by decide)).2.1,
   (clouds_count_clamped 100 (by decide)).2.2.1⟩

/-- Claim C7: the thermometer tube height of the data-indicator panel is
`min(|temperature| * 1.5, 35)`, lies in `[0, 35]`, and is monotonically
non-decreasing in `|temperature|`. -/
theorem thermometer_height_clamped (a b : ℚ) :
    indicator_temp_height a = min (|a| * 1.5) 35 ∧
    0 ≤ indicator_temp_height a ∧ indicator_temp_height a ≤ 35 ∧
    (|a| ≤ |b| → indicator_temp_height a ≤ indicator_temp_height b) := by
  refine ⟨rfl, ?_, min_le_right _ _, fun hab => ?_⟩
  · exact le_min (mul_nonneg (abs_nonneg a) (by norm_num)) (by norm_num)
  · exact min_le_min (mul_le_mul_of_nonneg_right hab (by norm_num)) le_rfl

/-- Witness for C7 at temperatures −10 and 20. -/
theorem thermometer_height_clamped_witness :
    indicator_temp_height (-10) = min (|(-10 : ℚ)| * 1.5) 35 ∧
    indicator_temp_height (-10) ≤ indicator_temp_height 20 :=
  ⟨(thermometer_height_clamped (-10) 20).1,
   (thermometer_height_clamped (-10) 20).2.2.2 (by norm_num)⟩

/-- The centerpiece of every condition starts with its (clock-free)
cloud-formation segment, possibly empty. -/
theorem centerpiece_cloud_first (F : FloatOps) (t : ℕ)
    (c : WeatherCondition) (temp : ℚ) (hum : ℕ) (wind : ℚ) (d : Bool) :
    ∃ rest, condition_centerpiece F t c temp hum wind d =
      cloud_segment c hum d ++ rest := by
  cases c
  case clear =>
    exact ⟨condition_centerpiece F t .clear temp hum wind d,
      by simp [cloud_segment]⟩
  case fog =>
    exact ⟨condition_centerpiece F t .fog temp hum wind d,
      by simp [cloud_segment]⟩
  case mist =>
    exact ⟨condition_centerpiece F t .mist temp hum wind d,
      by simp [cloud_segment]⟩
  case clouds => exact ⟨_, rfl⟩
  case rain =>
    exact ⟨rain_drops t true wind ++ draw_puddles F,
      by simp [condition_centerpiece, cloud_segment, draw_rain_system]⟩
  case drizzle =>
    exact ⟨rain_drops t false wind ++ draw_puddles F,
      by simp [condition_centerpiece, cloud_segment, draw_rain_system]⟩
  case thunderstorm => exact ⟨_, rfl⟩
  case snow =>
    exact ⟨snow_flake_field F t temp wind ++ draw_snow_drifts F,
      by simp [condition_centerpiece, cloud_segment, draw_snow_system]⟩
  all_goals exact ⟨[], by simp [condition_centerpiece, cloud_segment]⟩

/-- The cloud-formation segment of the scene is a contiguous sub-list of
the rendered frame, for every clock value. -/
theorem cloud_segment_in_scene (F : FloatOps) (t : ℕ)
    (c : WeatherCondition) (temp : ℚ) (hum : ℕ) (wind : ℚ) (d : Bool) :
    ∃ p q, render_weather_canvas F t c temp hum wind d =
      p ++ cloud_segment c hum d ++ q := by
  obtain ⟨rest, hmid⟩ := centerpiece_cloud_first F t c temp hum wind d
  exact ⟨draw_sky_gradient d temp c ++ draw_ground_terrain F t c,
    rest ++ wind_overlay F t wind ++ draw_weather_indicators temp hum wind,
    by simp [render_weather_canvas, hmid, List.append_assoc]⟩

/-- The indicator-panel frame is drawn in every frame. -/
theorem frame_in_scene (F : FloatOps) (t : ℕ) (c : WeatherCondition)
    (temp : ℚ) (hum : ℕ) (wind : ℚ) (d : Bool) :
    indicator_panel_frame ∈ render_weather_canvas F t c temp hum wind d := by
  simp [render_weather_canvas, draw_weather_indicators]

/-- The horizon line is drawn in every frame. -/
theorem horizon_in_scene (F : FloatOps) (t : ℕ) (c : WeatherCondition)
    (temp : ℚ) (hum : ℕ) (wind : ℚ) (d : Bool) :
    ground_horizon ∈ render_weather_canvas F t c temp hum wind d := by
  simp [render_weather_canvas, draw_ground_terrain]

/-- Claim C4: for a fixed input tuple and any two animation-clock
timestamps, the two rendered scenes agree on all static structural
elements: both decompose into the same clock-free sky-and-horizon-and-
ground-surface prefix and the same indicator-panel suffix (containing the
panel frame) around a clock-fed remainder, and both contain the identical
cloud-formation segment (the cloud cluster centers). -/
theorem scene_static_across_clock (F : FloatOps)
    (condition : WeatherCondition) (temperature : ℚ) (humidity : ℕ)
    (wind_speed : ℚ) (is_day : Bool) (t1 t2 : ℕ) :
    (∃ r1, render_weather_canvas F t1 condition temperature humidity
        wind_speed is_day =
      draw_sky_gradient is_day temperature condition
      ++ (ground_horizon :: ground_surface_points F condition)
      ++ r1 ++ draw_weather_indicators temperature humidity wind_speed) ∧
    (∃ r2, render_weather_canvas F t2 condition temperature humidity
        wind_speed is_day =
      draw_sky_gradient is_day temperature condition
      ++ (ground_horizon :: ground_surface_points F condition)
      ++ r2 ++ draw_weather_indicators temperature humidity wind_speed) ∧
    (∃ p q, render_weather_canvas F t1 condition temperature humidity
        wind_speed is_day =
      p ++ cloud_segment condition humidity is_day ++ q) ∧
    (∃ p q, render_weather_canvas F t2 condition temperature humidity
        wind_speed is_day =
      p ++ cloud_segment condition humidity is_day ++ q) ∧
    indicator_panel_frame ∈ render_weather_canvas F t1 condition
      temperature humidity wind_speed is_day ∧
    indicator_panel_frame ∈ render_weather_canvas F t2 condition
      temperature humidity wind_speed is_day ∧
    ground_horizon ∈ render_weather_canvas F t1 condition temperature
      humidity wind_speed is_day ∧
    ground_horizon ∈ render_weather_canvas F t2 condition temperature
      humidity wind_speed is_day := by
  refine ⟨⟨ground_features F t1 condition
      ++ condition_centerpiece F t1 condition temperature humidity
           wind_speed is_day
      ++ wind_overlay F t1 wind_speed, ?_⟩,
    ⟨ground_features F t2 condition
      ++ condition_centerpiece F t2 condition temperature humidity
           wind_speed is_day
      ++ wind_overlay F t2 wind_speed, ?_⟩,
    cloud_segment_in_scene F t1 condition temperature humidity wind_speed
      is_day,
    cloud_segment_in_scene F t2 condition temperature humidity wind_speed
      is_day,
    frame_in_scene F t1 condition temperature humidity wind_speed is_day,
    frame_in_scene F t2 condition temperature humidity wind_speed is_day,
    horizon_in_scene F t1 condition temperature humidity wind_speed is_day,
    horizon_in_scene F t2 condition temperature humidity wind_speed
      is_day⟩ <;>
  simp [render_weather_canvas, draw_ground_terrain, List.append_assoc]

/-- Claim C5: in a Thunderstorm scene, at clock phase
`clock % 4000 = 50` the primary lightning bolt (trigger position
(180, 160)) is drawn — it appears as a contiguous segment of the frame —
while at phase `clock % 4000 = 1000` the lightning site emits nothing and
the frame is exactly the bolt-free storm composition. -/
theorem thunderstorm_lightning_windows (F : FloatOps) (temperature : ℚ)
    (humidity : ℕ) (wind_speed : ℚ) (is_day : Bool) (t1 t2 : ℕ)
    (h1 : t1 % 4000 = 50) (h2 : t2 % 4000 = 1000) :
    storm_lightning t1 = draw_lightning_bolt 180 160 ∧
    (∃ p q, render_weather_canvas F t1 .thunderstorm temperature humidity
        wind_speed is_day = p ++ draw_lightning_bolt 180 160 ++ q) ∧
    storm_lightning t2 = [] ∧
    render_weather_canvas F t2 .thunderstorm temperature humidity
        wind_speed is_day =
      draw_sky_gradient is_day temperature .thunderstorm
      ++ draw_ground_terrain F t2 .thunderstorm
      ++ (draw_cloud_formations 95 true true
          ++ draw_torrential_rain t2 wind_speed
          ++ draw_storm_ground_effects F t2)
      ++ wind_overlay F t2 wind_speed
      ++ draw_weather_indicators temperature humidity wind_speed := by
  have hl1 : storm_lightning t1 = draw_lightning_bolt 180 160 := by
    simp [storm_lightning, h1]
  have hl2 : storm_lightning t2 = [] := by
    simp [storm_lightning, h2]
  refine ⟨hl1,
    ⟨draw_sky_gradient is_day temperature .thunderstorm
      ++ draw_ground_terrain F t1 .thunderstorm
      ++ draw_cloud_formations 95 true true,
     draw_torrential_rain t1 wind_speed ++ draw_storm_ground_effects F t1
      ++ wind_overlay F t1 wind_speed
      ++ draw_weather_indicators temperature humidity wind_speed, ?_⟩,
    hl2, ?_⟩
  · simp [render_weather_canvas, condition_centerpiece, draw_storm_system,
      hl1, List.append_assoc]
  · simp [render_weather_canvas, condition_centerpiece, draw_storm_system,
      hl2, List.append_assoc]

/-- Witness for C5 at clocks 50 and 1000. -/
theorem thunderstorm_lightning_windows_witness :
    storm_lightning 50 = draw_lightning_bolt 180 160 ∧
    storm_lightning 1000 = [] :=
  ⟨(thunderstorm_lightning_windows F0 0 0 0 true 50 1000 rfl rfl).1,
   (thunderstorm_lightning_windows F0 0 0 0 true 50 1000 rfl rfl).2.2.1⟩

/-- No command of a realistic cloud is a day separator. -/
theorem sep_count_realistic_cloud (x y size : ℚ) (c : Color) (o : ℚ)
    (st : Bool) :
    (draw_realistic_cloud x y size c o st).countP is_day_sep = 0 := by
  rw [List.countP_eq_zero]
  intro cmd hmem
  cases st with
  | false =>
      simp only [draw_realistic_cloud, Bool.false_eq_true, if_false,
        List.append_nil, List.mem_flatMap, List.mem_range,
        List.mem_map] at hmem
      obtain ⟨layer, -, pp, -, rfl⟩ := hmem
      simp [is_day_sep]
  | true =>
      simp only [draw_realistic_cloud, if_true, List.mem_append,
        List.mem_flatMap, List.mem_range, List.mem_map,
        List.mem_cons] at hmem
      rcases hmem with ⟨layer, -, pp, -, rfl⟩ | rfl | ⟨wisp, -, rfl⟩
      · simp [is_day_sep]
      · simp [is_day_sep]
      · simp [is_day_sep]

/-- No command of a forecast mini scene is a day separator. -/
theorem sep_count_mini_scene (F : FloatOps) (xo : ℚ)
    (day : DailyForecast) :
    (forecast_mini_scene F xo day).countP is_day_sep = 0 := by
  cases hcond : day.main_condition
  case clear =>
      rw [List.countP_eq_zero]
      intro cmd hmem
      simp only [forecast_mini_scene, hcond, List.mem_cons, List.mem_map,
        List.mem_range] at hmem
      rcases hmem with rfl | ⟨ray, -, rfl⟩
      · simp [is_day_sep]
      · simp [is_day_sep]
  case clouds => simp [forecast_mini_scene, hcond, sep_count_realistic_cloud]
  case rain =>
      rw [List.countP_eq_zero]
      intro cmd hmem
      simp only [forecast_mini_scene, hcond, List.mem_append,
        List.mem_map, List.mem_range] at hmem
      rcases hmem with hc | ⟨drop, -, rfl⟩
      · exact (List.countP_eq_zero.mp
          (sep_count_realistic_cloud (xo + 30) 70 7 .gray 1 false)) cmd hc
      · simp [is_day_sep]
  case drizzle =>
      rw [List.countP_eq_zero]
      intro cmd hmem
      simp only [forecast_mini_scene, hcond, List.mem_append,
        List.mem_map, List.mem_range] at hmem
      rcases hmem with hc | ⟨drop, -, rfl⟩
      · exact (List.countP_eq_zero.mp
          (sep_count_realistic_cloud (xo + 30) 70 7 .gray 1 false)) cmd hc
      · simp [is_day_sep]
  case thunderstorm =>
      rw [List.countP_eq_zero]
      intro cmd hmem
      simp only [forecast_mini_scene, hcond, List.mem_append] at hmem
      rcases hmem with hc | hl
      · exact (List.countP_eq_zero.mp
          (sep_count_realistic_cloud (xo + 30) 70 8 .darkGray 1 true)) cmd hc
      · simp only [List.zip, List.tail_cons, List.zipWith_cons_cons,
          List.zipWith_nil_right, List.map_cons, List.map_nil,
          List.mem_cons, List.not_mem_nil, or_false] at hl
        rcases hl with rfl | rfl | rfl <;> simp [is_day_sep]
  case snow =>
      rw [List.countP_eq_zero]
      intro cmd hmem
      simp only [forecast_mini_scene, hcond, List.mem_append,
        List.mem_map, List.mem_cons, List.not_mem_nil, or_false] at hmem
      rcases hmem with hc | ⟨s, hs, rfl⟩
      · exact (List.countP_eq_zero.mp
          (sep_count_realistic_cloud (xo + 30) 70 7 .white 1 false)) cmd hc
      · simp [is_day_sep]
  case fog =>
      rw [List.countP_eq_zero]
      intro cmd hmem
      simp only [forecast_mini_scene, hcond, List.mem_map,
        List.mem_range] at hmem
      obtain ⟨layer, -, rfl⟩ := hmem
      simp only [is_day_sep, decide_eq_true_eq]
      rintro ⟨-, h0, -⟩
      exact absurd h0 (by positivity)
  case mist =>
      rw [List.countP_eq_zero]
      intro cmd hmem
      simp only [forecast_mini_scene, hcond, List.mem_map,
        List.mem_range] at hmem
      obtain ⟨layer, -, rfl⟩ := hmem
      simp only [is_day_sep, decide_eq_true_eq]
      rintro ⟨-, h0, -⟩
      exact absurd h0 (by positivity)
  all_goals
    rw [List.countP_eq_zero]
    intro cmd hmem
    simp only [forecast_mini_scene, hcond, List.mem_cons,
      List.not_mem_nil, or_false] at hmem
    rcases hmem with rfl | rfl | rfl | rfl | rfl <;> simp [is_day_sep]

/-- No command of a forecast temperature bar is a day separator. -/
theorem sep_count_temp_bar (xo : ℚ) (day : DailyForecast) :
    (forecast_temp_bar xo day).countP is_day_sep = 0 := by
  rw [List.countP_eq_zero]
  intro cmd hmem
  simp only [forecast_temp_bar, List.mem_map, List.mem_range] at hmem
  obtain ⟨h, -, rfl⟩ := hmem
  simp [is_day_sep]

/-- The day-separator group contains exactly one separator line. -/
theorem sep_count_day_separator (xo : ℚ) :
    (day_separator xo).countP is_day_sep = 1 := by
  have hd : ((List.range 5).map (fun (dot : ℕ) =>
      DrawCmd.points [(xo + 70, 20 + (dot : ℚ) * 15)] Color.gray)).countP
        is_day_sep = 0 := by
    rw [List.countP_eq_zero]
    intro cmd hmem
    simp only [List.mem_map, List.mem_range] at hmem
    obtain ⟨d, -, rfl⟩ := hmem
    simp [is_day_sep]
  simp [day_separator, List.countP_cons, hd, is_day_sep]

/-- Each forecast day block contains one separator for indices below 6
and none otherwise. -/
theorem sep_count_day_block (F : FloatOps) (k : ℕ) (day : DailyForecast) :
    (forecast_day_block F k day).countP is_day_sep =
      if k < 6 then 1 else 0 := by
  by_cases hk : k < 6 <;>
    simp [forecast_day_block, List.countP_append, sep_count_mini_scene,
      sep_count_temp_bar, sep_count_day_separator, hk]

/-- Separator count over an enumerated run of day blocks. -/
theorem sep_count_blocks (F : FloatOps) (l : List DailyForecast) (k : ℕ) :
    ((l.enumFrom k).flatMap (fun p =>
        forecast_day_block F p.1 p.2)).countP is_day_sep =
      min (k + l.length) 6 - min k 6 := by
  induction l generalizing k with
  | nil => simp
  | cons d ds ih =>
      simp only [List.enumFrom, List.flatMap_cons, List.countP_append,
        sep_count_day_block, ih (k + 1), List.length_cons]
      by_cases hk : k < 6 <;> simp [hk] <;> omega

set_option maxRecDepth 4000 in
/-- Counterexample for C8: with a single-entry daily list the generator
emits one day slot but also one separator — not `max(1 - 1, 0) = 0`
separators as the claim states for `n < 7`. -/
theorem forecast_sep_counterexample :
    (render_forecast_canvas F0 [sample_day]).countP is_day_sep = 1 ∧
    (render_forecast_canvas F0 [sample_day]).countP is_day_sep ≠
      max (1 - 1) 0 := by
  have h1 : (render_forecast_canvas F0 [sample_day]).countP is_day_sep = 1 := by
    rw [render_forecast_canvas, List.countP_append]
    have hg : forecast_ground.countP is_day_sep = 0 := by decide
    rw [hg, List.enum, sep_count_blocks]
    simp
  exact ⟨h1, by rw [h1]; decide⟩

set_option maxRecDepth 4000 in
/-- Claim C8 (amended): the forecast generator emits `min n 7` day slots
and `min n 6` separators — in particular, exactly 7 slots and 6
separators for `n ≥ 7`, but `n` (not `n − 1`) separators for `n < 7`,
since a separator follows every rendered day whose index is below 6. -/
theorem forecast_slots_separators (F : FloatOps)
    (daily_data : List DailyForecast) :
    (daily_data.take 7).length = min daily_data.length 7 ∧
    (render_forecast_canvas F daily_data).countP is_day_sep =
      min daily_data.length 6 := by
  constructor
  · simp [List.length_take, Nat.min_comm]
  · rw [render_forecast_canvas, List.countP_append]
    have hg : forecast_ground.countP is_day_sep = 0 := by decide
    rw [hg, List.enum, sep_count_blocks]
    simp only [List.length_take, Nat.zero_add]
    omega

end WeatherCli
